import Mathlib

/-!
Shallow embedding of the `eth-npg` message generator (src/src/lib.rs).

The repository's core is `Generator`, a `Stream` of protocol-duty `Message`s
driven by a slot clock: `poll_next` drains a FIFO queue of already-resolved
messages; when the queue is empty and the per-slot sleep timer has elapsed it
reads the current slot from the clock, resolves the duties of that slot via
`queue_slot_msgs`, re-arms the sleep for the reported duration to the next
slot boundary, wakes itself, and returns `Pending`.

Machine integers (`Slot`, `ValId`, `Subnet`, `Duration` in milliseconds) are
modelled as `Nat`; `Duration::saturating_sub` is `Nat` subtraction, which is
already saturating. Fallible clock reads (`SlotClock::now`,
`duration_to_next_slot` return `Option` in Rust) are `Option`; the `unwrap()`
panics in `poll_next` are modelled as `Except.error`, a terminal outcome for
the stream. External collaborators (`SystemTimeSlotClock`, `SlotGenerator`)
are modelled as records of their interface functions, as the crate only
consumes their interfaces.
-/

namespace EthNpg

abbrev Slot := Nat
abbrev ValId := Nat
abbrev Subnet := Nat
abbrev Duration := Nat

/-- The five duty kinds, in the declaration order of `enum MsgType`
(src/src/lib.rs:21-27). `strum::EnumIter` iterates variants in this order. -/
inductive MsgType
  | BeaconBlock
  | AggregateAndProofAttestation
  | Attestation
  | SignedContributionAndProof
  | SyncCommitteeMessage
  deriving DecidableEq, Repr

/-- `MsgType::iter()` from `strum::EnumIter`: the variants in declaration
order. -/
def MsgType.iter : List MsgType :=
  [.BeaconBlock, .AggregateAndProofAttestation, .Attestation,
   .SignedContributionAndProof, .SyncCommitteeMessage]

/-- Position of a duty kind in the declaration order of `MsgType`. -/
def MsgType.rank : MsgType → Nat
  | .BeaconBlock => 0
  | .AggregateAndProofAttestation => 1
  | .Attestation => 2
  | .SignedContributionAndProof => 3
  | .SyncCommitteeMessage => 4

/-- `enum Message` (src/src/lib.rs:42-68): tagged union over the duty kinds;
every variant carries the slot, and all but `BeaconBlock` carry a subnet. -/
inductive Message
  | BeaconBlock (proposer : ValId) (slot : Slot)
  | AggregateAndProofAttestation (aggregator : ValId) (subnet : Subnet) (slot : Slot)
  | Attestation (attester : ValId) (subnet : Subnet) (slot : Slot)
  | SignedContributionAndProof (validator : ValId) (subnet : Subnet) (slot : Slot)
  | SyncCommitteeMessage (validator : ValId) (subnet : Subnet) (slot : Slot)
  deriving DecidableEq, Repr

/-- The duty kind of a message (the variant tag). -/
def Message.kind : Message → MsgType
  | .BeaconBlock _ _ => .BeaconBlock
  | .AggregateAndProofAttestation _ _ _ => .AggregateAndProofAttestation
  | .Attestation _ _ _ => .Attestation
  | .SignedContributionAndProof _ _ _ => .SignedContributionAndProof
  | .SyncCommitteeMessage _ _ _ => .SyncCommitteeMessage

/-- The slot field carried by a message. -/
def Message.slot : Message → Slot
  | .BeaconBlock _ s => s
  | .AggregateAndProofAttestation _ _ s => s
  | .Attestation _ _ s => s
  | .SignedContributionAndProof _ _ s => s
  | .SyncCommitteeMessage _ _ s => s

/-- The `#[derive(PartialEq)]` comparison on `Message`: true iff same
variant and field-wise equal. -/
def Message.structEq : Message → Message → Bool
  | .BeaconBlock p1 s1, .BeaconBlock p2 s2 => p1 == p2 && s1 == s2
  | .AggregateAndProofAttestation a1 n1 s1, .AggregateAndProofAttestation a2 n2 s2 =>
      a1 == a2 && n1 == n2 && s1 == s2
  | .Attestation a1 n1 s1, .Attestation a2 n2 s2 => a1 == a2 && n1 == n2 && s1 == s2
  | .SignedContributionAndProof v1 n1 s1, .SignedContributionAndProof v2 n2 s2 =>
      v1 == v2 && n1 == n2 && s1 == s2
  | .SyncCommitteeMessage v1 n1 s1, .SyncCommitteeMessage v2 n2 s2 =>
      v1 == v2 && n1 == n2 && s1 == s2
  | _, _ => false

/-- The `#[derive(Hash)]` on `Message`: a structural hash of the variant tag
and the field values (modelled with the `Nat` pairing function). -/
def Message.structHash : Message → Nat
  | .BeaconBlock p s => Nat.pair 0 (Nat.pair p s)
  | .AggregateAndProofAttestation a n s => Nat.pair 1 (Nat.pair a (Nat.pair n s))
  | .Attestation a n s => Nat.pair 2 (Nat.pair a (Nat.pair n s))
  | .SignedContributionAndProof v n s => Nat.pair 3 (Nat.pair v (Nat.pair n s))
  | .SyncCommitteeMessage v n s => Nat.pair 4 (Nat.pair v (Nat.pair n s))

/-- The `SystemTimeSlotClock` interface as the crate consumes it: a fixed
slot duration and the two fallible reads, frozen at the instant they are
made. -/
structure SystemTimeSlotClock where
  slot_duration : Duration
  now : Option Slot
  duration_to_next_slot : Option Duration
  deriving DecidableEq, Repr

/-- The `SlotGenerator` (duty resolver) interface: the five pure query
operations, each taking the slot and the validator registry and returning an
ordered finite collection (src/src/lib.rs:89-135 call sites). -/
structure SlotGenerator where
  get_blocks : Slot → Finset ValId → List ValId
  get_aggregates : Slot → Finset ValId → List (ValId × Subnet)
  get_attestations : Slot → Finset ValId → List (ValId × Subnet)
  get_sync_committee_aggregates : Slot → Finset ValId → List (ValId × Subnet)
  get_sync_committee_messages : Slot → Finset ValId → List (ValId × Subnet)

/-- `tokio::time::Sleep`: a single-shot timer identified by its remaining
duration; polling it is ready exactly when the remaining duration has
reached zero. -/
structure Sleep where
  remaining : Duration
  deriving DecidableEq, Repr

/-- `Sleep::poll(...).is_ready()`. -/
def Sleep.isReady (t : Sleep) : Bool := t.remaining == 0

/-- `struct Generator` (src/src/lib.rs:29-40). -/
structure Generator where
  slot_clock : SystemTimeSlotClock
  slot_generator : SlotGenerator
  validators : Finset ValId
  queued_messages : List Message
  next_slot : Sleep

/-- `Generator::time_since_last_slot` (src/src/lib.rs:78-84):
`slot_duration.saturating_sub(duration_to_next_slot().unwrap_or(ZERO))`. -/
def Generator.time_since_last_slot (g : Generator) : Duration :=
  g.slot_clock.slot_duration - (g.slot_clock.duration_to_next_slot.getD 0)

/-- One arm of the `match msg_type` in `Generator::queue_slot_msgs`
(src/src/lib.rs:88-136): the resolver output for one duty kind, each
assignment wrapped in the corresponding `Message` variant carrying
`current_slot`. -/
def Generator.msgsFor (g : Generator) (current_slot : Slot) : MsgType → List Message
  | .BeaconBlock =>
      (g.slot_generator.get_blocks current_slot g.validators).map
        (fun proposer => Message.BeaconBlock proposer current_slot)
  | .AggregateAndProofAttestation =>
      (g.slot_generator.get_aggregates current_slot g.validators).map
        (fun x => Message.AggregateAndProofAttestation x.1 x.2 current_slot)
  | .Attestation =>
      (g.slot_generator.get_attestations current_slot g.validators).map
        (fun x => Message.Attestation x.1 x.2 current_slot)
  | .SignedContributionAndProof =>
      (g.slot_generator.get_sync_committee_aggregates current_slot g.validators).map
        (fun x => Message.SignedContributionAndProof x.1 x.2 current_slot)
  | .SyncCommitteeMessage =>
      (g.slot_generator.get_sync_committee_messages current_slot g.validators).map
        (fun x => Message.SyncCommitteeMessage x.1 x.2 current_slot)

/-- `Generator::queue_slot_msgs` (src/src/lib.rs:86-138): the
`for msg_type in MsgType::iter()` loop, each iteration extending
`queued_messages` with that kind's wrapped resolver output. The second
component is a ghost trace recording, in order, the one resolver query
operation invoked per loop iteration; it instruments the call count and does
not influence the state. -/
def Generator.queue_slot_msgs (g : Generator) (current_slot : Slot) :
    Generator × List MsgType :=
  MsgType.iter.foldl
    (fun (p : Generator × List MsgType) msg_type =>
      ({ p.1 with
          queued_messages := p.1.queued_messages ++ p.1.msgsFor current_slot msg_type },
       p.2 ++ [msg_type]))
    (g, [])

/-- `std::task::Poll`, specialised to what `poll_next` returns. -/
inductive Poll (α : Type)
  | Ready (a : α)
  | Pending
  deriving DecidableEq, Repr

/-- The two `unwrap()` panics reachable in `poll_next`
(src/src/lib.rs:154 and 157). -/
inductive TimeError
  | nowUnavailable
  | durationUnavailable
  deriving DecidableEq, Repr

/-- Observable outcome of one `poll_next` call: the returned `Poll`, the
successor state, the ghost trace of resolver query operations invoked during
the call, and whether the call invoked `cx.waker().wake_by_ref()`
(scheduling an immediate re-poll with no external stimulus). -/
structure PollOutcome where
  result : Poll (Option Message)
  state : Generator
  resolver_calls : List MsgType
  self_woken : Bool

/-- `<Generator as Stream>::poll_next` (src/src/lib.rs:144-164).
A panic of the two `unwrap()` calls is `Except.error`. -/
def Generator.poll_next (g : Generator) : Except TimeError PollOutcome :=
  match g.queued_messages with
  | msg :: rest =>
      .ok ⟨.Ready (some msg), { g with queued_messages := rest }, [], false⟩
  | [] =>
      if g.next_slot.isReady then
        match g.slot_clock.now with
        | none => .error .nowUnavailable
        | some current_slot =>
          let filled := g.queue_slot_msgs current_slot
          match filled.1.slot_clock.duration_to_next_slot with
          | none => .error .durationUnavailable
          | some duration_to_next_slot =>
              .ok ⟨.Pending,
                   { filled.1 with next_slot := ⟨duration_to_next_slot⟩ },
                   filled.2, true⟩
      else
        .ok ⟨.Pending, g, [], false⟩

/-- The block of messages one resolution of `current_slot` appends to the
queue: the five kinds' wrapped resolver outputs concatenated in the
declaration order of `MsgType`. -/
def Generator.slotAppend (g : Generator) (current_slot : Slot) : List Message :=
  g.msgsFor current_slot .BeaconBlock
    ++ g.msgsFor current_slot .AggregateAndProofAttestation
    ++ g.msgsFor current_slot .Attestation
    ++ g.msgsFor current_slot .SignedContributionAndProof
    ++ g.msgsFor current_slot .SyncCommitteeMessage

/-- Membership in the union of the five resolver outputs for
`(current_slot, validators)`, each wrapped in its `Message` variant — the
spec's description of the emitted message set for a slot. -/
def Generator.inDutyUnion (g : Generator) (s : Slot) (m : Message) : Prop :=
  (∃ p, p ∈ g.slot_generator.get_blocks s g.validators ∧
    m = Message.BeaconBlock p s) ∨
  (∃ x, x ∈ g.slot_generator.get_aggregates s g.validators ∧
    m = Message.AggregateAndProofAttestation x.1 x.2 s) ∨
  (∃ x, x ∈ g.slot_generator.get_attestations s g.validators ∧
    m = Message.Attestation x.1 x.2 s) ∨
  (∃ x, x ∈ g.slot_generator.get_sync_committee_aggregates s g.validators ∧
    m = Message.SignedContributionAndProof x.1 x.2 s) ∨
  (∃ x, x ∈ g.slot_generator.get_sync_committee_messages s g.validators ∧
    m = Message.SyncCommitteeMessage x.1 x.2 s)

/-! Concrete instances, used to evaluate the embedding on the spec's concrete
scenario (registry `{1, 2}`, slot duration 12, at slot 100 the resolver
reports proposer `1`, attestation duties `[(1, 3), (2, 7)]`, all other kinds
empty). -/

/-- Resolver of the spec's concrete scenario. -/
def sgEx : SlotGenerator where
  get_blocks := fun _ _ => [1]
  get_aggregates := fun _ _ => []
  get_attestations := fun _ _ => [(1, 3), (2, 7)]
  get_sync_committee_aggregates := fun _ _ => []
  get_sync_committee_messages := fun _ _ => []

/-- Clock reading: inside slot 100, 12 time-units to the next boundary. -/
def clockEx : SystemTimeSlotClock := ⟨12, some 100, some 12⟩

/-- Generator at a realized slot-100 boundary: empty queue, elapsed timer. -/
def genEx : Generator := ⟨clockEx, sgEx, {1, 2}, [], ⟨0⟩⟩

/-- Generator with two already-resolved messages queued and an elapsed
timer. -/
def genQ : Generator :=
  { genEx with queued_messages := [.BeaconBlock 1 100, .Attestation 2 7 100] }

/-- Generator whose clock cannot report the current slot. -/
def genNoNow : Generator := { genEx with slot_clock := ⟨12, none, some 12⟩ }

/-- Generator whose clock cannot report the duration to the next boundary. -/
def genNoDur : Generator := { genEx with slot_clock := ⟨12, some 100, none⟩ }

/-! Helper lemmas about `queue_slot_msgs` and `slotAppend`, shared by the
claim theorems. -/

theorem queue_slot_msgs_fst (g : Generator) (s : Slot) :
    (g.queue_slot_msgs s).1 =
      { g with queued_messages := g.queued_messages ++ g.slotAppend s } := by
  simp only [Generator.queue_slot_msgs, MsgType.iter, List.foldl_cons, List.foldl_nil,
    Generator.slotAppend, Generator.msgsFor, List.append_assoc]

theorem queue_slot_msgs_snd (g : Generator) (s : Slot) :
    (g.queue_slot_msgs s).2 = MsgType.iter := rfl

theorem queue_slot_msgs_slot_clock (g : Generator) (s : Slot) :
    (g.queue_slot_msgs s).1.slot_clock = g.slot_clock := rfl

theorem msgsFor_kind_slot (g : Generator) (s : Slot) (k : MsgType) :
    ∀ m ∈ g.msgsFor s k, m.kind = k ∧ m.slot = s := by
  cases k <;>
    · intro m hm
      simp only [Generator.msgsFor, List.mem_map] at hm
      obtain ⟨x, _, rfl⟩ := hm
      exact ⟨rfl, rfl⟩

theorem mem_slotAppend (g : Generator) (s : Slot) (m : Message) :
    m ∈ g.slotAppend s ↔
      m ∈ g.msgsFor s .BeaconBlock ∨ m ∈ g.msgsFor s .AggregateAndProofAttestation ∨
      m ∈ g.msgsFor s .Attestation ∨ m ∈ g.msgsFor s .SignedContributionAndProof ∨
      m ∈ g.msgsFor s .SyncCommitteeMessage := by
  simp [Generator.slotAppend, List.mem_append, or_assoc]

theorem slotAppend_slot (g : Generator) (s : Slot) :
    ∀ m ∈ g.slotAppend s, m.slot = s := by
  intro m hm
  rcases (mem_slotAppend g s m).mp hm with h | h | h | h | h <;>
    exact (msgsFor_kind_slot g s _ m h).2

theorem msgsFor_disjoint (g : Generator) (s : Slot) {k1 k2 : MsgType} (hk : k1 ≠ k2) :
    (g.msgsFor s k1).Disjoint (g.msgsFor s k2) := by
  intro m h1 h2
  exact hk (((msgsFor_kind_slot g s k1 m h1).1).symm.trans
    (msgsFor_kind_slot g s k2 m h2).1)

/-- C10: `time_since_last_slot` always lies in `[0, slot_duration]`; it is
the slot duration minus the clock's duration-to-next-boundary (saturating at
zero, as `Nat` subtraction), and when that reading fails it returns the full
slot duration instead of propagating the failure. -/
theorem time_since_last_slot_spec (g : Generator) :
    g.time_since_last_slot ≤ g.slot_clock.slot_duration ∧
    (∀ d, g.slot_clock.duration_to_next_slot = some d →
      g.time_since_last_slot = g.slot_clock.slot_duration - d) ∧
    (g.slot_clock.duration_to_next_slot = none →
      g.time_since_last_slot = g.slot_clock.slot_duration) := by
  refine ⟨Nat.sub_le _ _, fun d hd => ?_, fun h => ?_⟩
  · simp [Generator.time_since_last_slot, hd]
  · simp [Generator.time_since_last_slot, h]

/-- Witness for C10 at the concrete scenario clock and at the clock whose
duration reading fails. -/
theorem time_since_last_slot_spec_witness :
    genEx.time_since_last_slot = genEx.slot_clock.slot_duration - 12 ∧
    genNoDur.time_since_last_slot = genNoDur.slot_clock.slot_duration :=
  ⟨(time_since_last_slot_spec genEx).2.1 12 rfl,
   (time_since_last_slot_spec genNoDur).2.2 rfl⟩

/-- C9: `Message` equality is structural — two messages are equal exactly
when the derived field-wise comparison succeeds — and equal messages have
equal structural hashes. -/
theorem message_structural_eq_hash :
    (∀ m1 m2 : Message, m1 = m2 ↔ Message.structEq m1 m2 = true) ∧
    (∀ m1 m2 : Message, m1 = m2 → Message.structHash m1 = Message.structHash m2) := by
  constructor
  · intro m1 m2
    cases m1 <;> cases m2 <;> simp [Message.structEq, and_assoc]
  · intro m1 m2 h
    rw [h]

/-- Witness for C9 on a concrete message pair. -/
theorem message_structural_eq_hash_witness :
    ((Message.Attestation 1 3 100 = Message.Attestation 1 3 100) ↔
      Message.structEq (Message.Attestation 1 3 100) (Message.Attestation 1 3 100) = true) ∧
    Message.structHash (Message.Attestation 1 3 100) =
      Message.structHash (Message.Attestation 1 3 100) :=
  ⟨message_structural_eq_hash.1 _ _, message_structural_eq_hash.2 _ _ rfl⟩

/-- C6: whenever the queue is non-empty, `poll_next` removes and returns the
front element without suspending and without touching the timer, whose state
is irrelevant to this branch. -/
theorem poll_next_drains_front (g : Generator) (m : Message) (rest : List Message)
    (h : g.queued_messages = m :: rest) :
    g.poll_next =
      .ok ⟨.Ready (some m), { g with queued_messages := rest }, [], false⟩ := by
  simp [Generator.poll_next, h]

/-- Witness for C6: `genQ` has a non-empty queue and a timer that is already
due, and the call still returns the front message immediately. -/
theorem poll_next_drains_front_witness :
    genQ.next_slot.isReady = true ∧
    genQ.poll_next =
      .ok ⟨.Ready (some (.BeaconBlock 1 100)),
           { genQ with queued_messages := [.Attestation 2 7 100] }, [], false⟩ :=
  ⟨rfl, poll_next_drains_front genQ _ _ rfl⟩

/-- C7: after the timer fires, a clock failure to report the current slot,
or the duration to the next boundary, terminates the call with an error —
no retry, no silently continued sequence. -/
theorem time_source_error_terminal (g g' : Generator) (s : Slot)
    (hq : g.queued_messages = []) (ht : g.next_slot.isReady = true)
    (hn : g.slot_clock.now = none)
    (hq' : g'.queued_messages = []) (ht' : g'.next_slot.isReady = true)
    (hn' : g'.slot_clock.now = some s)
    (hd' : g'.slot_clock.duration_to_next_slot = none) :
    g.poll_next = .error .nowUnavailable ∧
    g'.poll_next = .error .durationUnavailable := by
  constructor
  · simp [Generator.poll_next, hq, ht, hn]
  · simp [Generator.poll_next, hq', ht', hn', queue_slot_msgs_slot_clock, hd']

/-- Witness for C7 at the two concrete failing clocks. -/
theorem time_source_error_terminal_witness :
    genNoNow.poll_next = .error .nowUnavailable ∧
    genNoDur.poll_next = .error .durationUnavailable :=
  time_source_error_terminal genNoNow genNoDur 100 rfl rfl rfl rfl rfl rfl rfl

/-- C8: the state holds a single timer handle (`next_slot`); when a boundary
is realized, `poll_next` replaces it with one new timer armed for exactly
the clock's reported duration to the next boundary. -/
theorem timer_rearmed (g : Generator) (s : Slot) (d : Duration)
    (hq : g.queued_messages = []) (ht : g.next_slot.isReady = true)
    (hn : g.slot_clock.now = some s)
    (hd : g.slot_clock.duration_to_next_slot = some d) :
    ∃ o, g.poll_next = .ok o ∧ o.state.next_slot = ⟨d⟩ := by
  refine ⟨⟨.Pending, { (g.queue_slot_msgs s).1 with next_slot := ⟨d⟩ },
    (g.queue_slot_msgs s).2, true⟩, ?_, rfl⟩
  simp [Generator.poll_next, hq, ht, hn, queue_slot_msgs_slot_clock, hd]

/-- Witness for C8: at the concrete boundary the timer is re-armed for the
reported 12 time-units. -/
theorem timer_rearmed_witness :
    ∃ o, genEx.poll_next = .ok o ∧ o.state.next_slot = ⟨12⟩ :=
  timer_rearmed genEx 100 12 rfl rfl rfl rfl

/-- C4: at a realized boundary each of the five resolver query operations is
invoked exactly once (the ghost trace is one occurrence of each duty kind),
and a call that finds the queue non-empty returns a queued message with no
resolver invocation at all. -/
theorem resolver_exactly_once (g g' : Generator) (s : Slot) (d : Duration)
    (m : Message) (rest : List Message)
    (hq : g.queued_messages = []) (ht : g.next_slot.isReady = true)
    (hn : g.slot_clock.now = some s)
    (hd : g.slot_clock.duration_to_next_slot = some d)
    (hq' : g'.queued_messages = m :: rest) :
    (∃ o, g.poll_next = .ok o ∧ o.resolver_calls = MsgType.iter ∧
      ∀ k : MsgType, o.resolver_calls.count k = 1) ∧
    (∃ o', g'.poll_next = .ok o' ∧ o'.result = .Ready (some m) ∧
      o'.resolver_calls = []) := by
  constructor
  · refine ⟨⟨.Pending, { (g.queue_slot_msgs s).1 with next_slot := ⟨d⟩ },
      (g.queue_slot_msgs s).2, true⟩, ?_, queue_slot_msgs_snd g s, ?_⟩
    · simp [Generator.poll_next, hq, ht, hn, queue_slot_msgs_slot_clock, hd]
    · intro k
      rw [queue_slot_msgs_snd]
      cases k <;> rfl
  · refine ⟨⟨.Ready (some m), { g' with queued_messages := rest }, [], false⟩, ?_, rfl, rfl⟩
    simp [Generator.poll_next, hq']

/-- Witness for C4 at the concrete boundary state and the concrete draining
state. -/
theorem resolver_exactly_once_witness :
    (∃ o, genEx.poll_next = .ok o ∧ o.resolver_calls = MsgType.iter ∧
      ∀ k : MsgType, o.resolver_calls.count k = 1) ∧
    (∃ o', genQ.poll_next = .ok o' ∧
      o'.result = .Ready (some (.BeaconBlock 1 100)) ∧ o'.resolver_calls = []) :=
  resolver_exactly_once genEx genQ 100 12 (.BeaconBlock 1 100)
    [.Attestation 2 7 100] rfl rfl rfl rfl rfl

/-- C5: the slot resolved at a boundary is exactly the one the clock reports
at that moment; every message enqueued by the call carries that slot, so no
message for any skipped slot is ever enqueued. -/
theorem no_backfill (g : Generator) (s : Slot) (d : Duration)
    (hq : g.queued_messages = []) (ht : g.next_slot.isReady = true)
    (hn : g.slot_clock.now = some s)
    (hd : g.slot_clock.duration_to_next_slot = some d) :
    ∃ o, g.poll_next = .ok o ∧ o.state.queued_messages = g.slotAppend s ∧
      ∀ m ∈ o.state.queued_messages, m.slot = s := by
  refine ⟨⟨.Pending, { (g.queue_slot_msgs s).1 with next_slot := ⟨d⟩ },
    (g.queue_slot_msgs s).2, true⟩, ?_, ?_, ?_⟩
  · simp [Generator.poll_next, hq, ht, hn, queue_slot_msgs_slot_clock, hd]
  · simp [queue_slot_msgs_fst, hq]
  · intro m hm
    exact slotAppend_slot g s m (by simpa [queue_slot_msgs_fst, hq] using hm)

/-- Witness for C5 at the concrete boundary state: everything enqueued
carries slot 100. -/
theorem no_backfill_witness :
    ∃ o, genEx.poll_next = .ok o ∧ o.state.queued_messages = genEx.slotAppend 100 ∧
      ∀ m ∈ o.state.queued_messages, m.slot = 100 :=
  no_backfill genEx 100 12 rfl rfl rfl rfl

/-- C2: one resolution of slot `s` appends exactly `slotAppend`, whose
members are precisely the union of the five wrapped resolver outputs for
`(s, validators)` — no kind dropped — and, when each resolver output is
duplicate-free, the appended block holds no duplicate message (same kind,
same assignment fields, same slot). -/
theorem queue_slot_msgs_union (g : Generator) (s : Slot)
    (hb : (g.slot_generator.get_blocks s g.validators).Nodup)
    (hag : (g.slot_generator.get_aggregates s g.validators).Nodup)
    (hat : (g.slot_generator.get_attestations s g.validators).Nodup)
    (hsa : (g.slot_generator.get_sync_committee_aggregates s g.validators).Nodup)
    (hsm : (g.slot_generator.get_sync_committee_messages s g.validators).Nodup) :
    (g.queue_slot_msgs s).1.queued_messages = g.queued_messages ++ g.slotAppend s ∧
    (∀ m, m ∈ g.slotAppend s ↔ g.inDutyUnion s m) ∧
    (g.slotAppend s).Nodup := by
  refine ⟨by rw [queue_slot_msgs_fst], ?_, ?_⟩
  · intro m
    rw [mem_slotAppend]
    simp only [Generator.msgsFor, Generator.inDutyUnion, List.mem_map]
    constructor
    · rintro (⟨x, hx, rfl⟩ | ⟨x, hx, rfl⟩ | ⟨x, hx, rfl⟩ | ⟨x, hx, rfl⟩ | ⟨x, hx, rfl⟩)
      · exact Or.inl ⟨x, hx, rfl⟩
      · exact Or.inr (Or.inl ⟨x, hx, rfl⟩)
      · exact Or.inr (Or.inr (Or.inl ⟨x, hx, rfl⟩))
      · exact Or.inr (Or.inr (Or.inr (Or.inl ⟨x, hx, rfl⟩)))
      · exact Or.inr (Or.inr (Or.inr (Or.inr ⟨x, hx, rfl⟩)))
    · rintro (⟨x, hx, rfl⟩ | ⟨x, hx, rfl⟩ | ⟨x, hx, rfl⟩ | ⟨x, hx, rfl⟩ | ⟨x, hx, rfl⟩)
      · exact Or.inl ⟨x, hx, rfl⟩
      · exact Or.inr (Or.inl ⟨x, hx, rfl⟩)
      · exact Or.inr (Or.inr (Or.inl ⟨x, hx, rfl⟩))
      · exact Or.inr (Or.inr (Or.inr (Or.inl ⟨x, hx, rfl⟩)))
      · exact Or.inr (Or.inr (Or.inr (Or.inr ⟨x, hx, rfl⟩)))
  · have hA : (g.msgsFor s .BeaconBlock).Nodup := by
      simp only [Generator.msgsFor]
      exact hb.map fun a b hab => by simpa using hab
    have hB : (g.msgsFor s .AggregateAndProofAttestation).Nodup := by
      simp only [Generator.msgsFor]
      refine hag.map fun a b hab => ?_
      obtain ⟨a1, a2⟩ := a; obtain ⟨b1, b2⟩ := b
      simpa using hab
    have hC : (g.msgsFor s .Attestation).Nodup := by
      simp only [Generator.msgsFor]
      refine hat.map fun a b hab => ?_
      obtain ⟨a1, a2⟩ := a; obtain ⟨b1, b2⟩ := b
      simpa using hab
    have hD : (g.msgsFor s .SignedContributionAndProof).Nodup := by
      simp only [Generator.msgsFor]
      refine hsa.map fun a b hab => ?_
      obtain ⟨a1, a2⟩ := a; obtain ⟨b1, b2⟩ := b
      simpa using hab
    have hE : (g.msgsFor s .SyncCommitteeMessage).Nodup := by
      simp only [Generator.msgsFor]
      refine hsm.map fun a b hab => ?_
      obtain ⟨a1, a2⟩ := a; obtain ⟨b1, b2⟩ := b
      simpa using hab
    have hAB := hA.append hB (msgsFor_disjoint g s (by decide))
    have hABC := hAB.append hC (List.disjoint_append_left.mpr
      ⟨msgsFor_disjoint g s (by decide), msgsFor_disjoint g s (by decide)⟩)
    have hABCD := hABC.append hD (List.disjoint_append_left.mpr
      ⟨List.disjoint_append_left.mpr
        ⟨msgsFor_disjoint g s (by decide), msgsFor_disjoint g s (by decide)⟩,
       msgsFor_disjoint g s (by decide)⟩)
    exact hABCD.append hE (List.disjoint_append_left.mpr
      ⟨List.disjoint_append_left.mpr
        ⟨List.disjoint_append_left.mpr
          ⟨msgsFor_disjoint g s (by decide), msgsFor_disjoint g s (by decide)⟩,
         msgsFor_disjoint g s (by decide)⟩,
       msgsFor_disjoint g s (by decide)⟩)

/-- Witness for C2 at the concrete scenario: the appended block for slot 100
is characterized by the duty union and is duplicate-free. -/
theorem queue_slot_msgs_union_witness :
    (genEx.queue_slot_msgs 100).1.queued_messages =
      genEx.queued_messages ++ genEx.slotAppend 100 ∧
    (∀ m, m ∈ genEx.slotAppend 100 ↔ genEx.inDutyUnion 100 m) ∧
    (genEx.slotAppend 100).Nodup :=
  queue_slot_msgs_union genEx 100 (by decide) (by decide) (by decide)
    (by decide) (by decide)

theorem msgsFor_rank_le (g : Generator) (s : Slot) {k1 k2 : MsgType}
    (m1 : Message) (h1 : m1 ∈ g.msgsFor s k1)
    (m2 : Message) (h2 : m2 ∈ g.msgsFor s k2)
    (h : MsgType.rank k1 ≤ MsgType.rank k2) :
    MsgType.rank m1.kind ≤ MsgType.rank m2.kind := by
  rw [(msgsFor_kind_slot g s k1 m1 h1).1, (msgsFor_kind_slot g s k2 m2 h2).1]
  exact h

/-- C3: one resolution appends the five wrapped resolver outputs in the
declared kind order `[BeaconBlock, AggregateAndProofAttestation, Attestation,
SignedContributionAndProof, SyncCommitteeMessage]`, each kind's block in
exactly the resolver's returned order, so the kind ranks along the appended
block are monotone. -/
theorem emission_order (g : Generator) (s : Slot) :
    (g.queue_slot_msgs s).1.queued_messages =
      g.queued_messages
        ++ (g.slot_generator.get_blocks s g.validators).map
            (fun p => Message.BeaconBlock p s)
        ++ (g.slot_generator.get_aggregates s g.validators).map
            (fun x => Message.AggregateAndProofAttestation x.1 x.2 s)
        ++ (g.slot_generator.get_attestations s g.validators).map
            (fun x => Message.Attestation x.1 x.2 s)
        ++ (g.slot_generator.get_sync_committee_aggregates s g.validators).map
            (fun x => Message.SignedContributionAndProof x.1 x.2 s)
        ++ (g.slot_generator.get_sync_committee_messages s g.validators).map
            (fun x => Message.SyncCommitteeMessage x.1 x.2 s) ∧
    List.Pairwise (fun m1 m2 => MsgType.rank m1.kind ≤ MsgType.rank m2.kind)
      (g.slotAppend s) := by
  constructor
  · rw [queue_slot_msgs_fst]
    simp [Generator.slotAppend, Generator.msgsFor, List.append_assoc]
  · have seg : ∀ k : MsgType,
        List.Pairwise (fun m1 m2 => MsgType.rank m1.kind ≤ MsgType.rank m2.kind)
          (g.msgsFor s k) :=
      fun k => List.pairwise_of_forall_mem_list
        (fun a ha b hb => msgsFor_rank_le g s a ha b hb le_rfl)
    unfold Generator.slotAppend
    rw [List.pairwise_append]
    refine ⟨?_, seg .SyncCommitteeMessage, ?_⟩
    · rw [List.pairwise_append]
      refine ⟨?_, seg .SignedContributionAndProof, ?_⟩
      · rw [List.pairwise_append]
        refine ⟨?_, seg .Attestation, ?_⟩
        · rw [List.pairwise_append]
          exact ⟨seg .BeaconBlock, seg .AggregateAndProofAttestation,
            fun a ha b hb => msgsFor_rank_le g s a ha b hb (by decide)⟩
        · intro a ha b hb
          rcases List.mem_append.mp ha with h | h
          · exact msgsFor_rank_le g s a h b hb (by decide)
          · exact msgsFor_rank_le g s a h b hb (by decide)
      · intro a ha b hb
        rcases List.mem_append.mp ha with h | h
        · rcases List.mem_append.mp h with h' | h'
          · exact msgsFor_rank_le g s a h' b hb (by decide)
          · exact msgsFor_rank_le g s a h' b hb (by decide)
        · exact msgsFor_rank_le g s a h b hb (by decide)
    · intro a ha b hb
      rcases List.mem_append.mp ha with h | h
      · rcases List.mem_append.mp h with h' | h'
        · rcases List.mem_append.mp h' with h'' | h''
          · exact msgsFor_rank_le g s a h'' b hb (by decide)
          · exact msgsFor_rank_le g s a h'' b hb (by decide)
        · exact msgsFor_rank_le g s a h' b hb (by decide)
      · exact msgsFor_rank_le g s a h b hb (by decide)

/-- C1 counterexample: at the concrete realized boundary (empty queue, timer
due, slot-100 resolution non-empty) the very `poll_next` call that fills the
queue returns `Pending` — not the front message — while scheduling an
immediate self-wake. -/
theorem boundary_poll_reports_pending :
    genEx.queued_messages = [] ∧ genEx.next_slot.isReady = true ∧
    genEx.slotAppend 100 ≠ [] ∧
    genEx.poll_next =
      .ok ⟨.Pending,
        { genEx with
            queued_messages :=
              [.BeaconBlock 1 100, .Attestation 1 3 100, .Attestation 2 7 100],
            next_slot := ⟨12⟩ },
        MsgType.iter, true⟩ :=
  ⟨rfl, rfl, by decide, rfl⟩

/-- C1 amended: at a realized boundary with a non-empty resolution, the call
enqueues the slot's messages, returns `Pending`, and wakes itself; the next
`poll_next` call — with no external stimulus — returns the front of the
freshly filled queue. -/
theorem boundary_self_wake_then_front (g : Generator) (s : Slot) (d : Duration)
    (m : Message) (ms : List Message)
    (hq : g.queued_messages = []) (ht : g.next_slot.isReady = true)
    (hn : g.slot_clock.now = some s)
    (hd : g.slot_clock.duration_to_next_slot = some d)
    (hne : g.slotAppend s = m :: ms) :
    ∃ o, g.poll_next = .ok o ∧ o.result = .Pending ∧ o.self_woken = true ∧
      ∃ o2, o.state.poll_next = .ok o2 ∧ o2.result = .Ready (some m) := by
  refine ⟨⟨.Pending, { (g.queue_slot_msgs s).1 with next_slot := ⟨d⟩ },
    (g.queue_slot_msgs s).2, true⟩, ?_, rfl, rfl, ?_⟩
  · simp [Generator.poll_next, hq, ht, hn, queue_slot_msgs_slot_clock, hd]
  · have hstate : (g.queue_slot_msgs s).1.queued_messages = m :: ms := by
      simp [queue_slot_msgs_fst, hq, hne]
    refine ⟨⟨.Ready (some m),
      { { (g.queue_slot_msgs s).1 with next_slot := (⟨d⟩ : Sleep) } with
          queued_messages := ms }, [], false⟩, ?_, rfl⟩
    simp [Generator.poll_next, hstate]

/-- Witness for the amended C1 at the concrete boundary: the self-woken
re-poll returns the slot-100 beacon block. -/
theorem boundary_self_wake_then_front_witness :
    ∃ o, genEx.poll_next = .ok o ∧ o.result = .Pending ∧ o.self_woken = true ∧
      ∃ o2, o.state.poll_next = .ok o2 ∧
        o2.result = .Ready (some (.BeaconBlock 1 100)) :=
  boundary_self_wake_then_front genEx 100 12 (.BeaconBlock 1 100)
    [.Attestation 1 3 100, .Attestation 2 7 100] rfl rfl rfl rfl rfl

end EthNpg
